import Mathlib

/-!
Verification development for the Smart Irrigation Control Loop of the
TCC-Estufa repository (`apps/ai/services/irrigation_service.py`).

The Python source is shallowly embedded: floats are modelled as `Rat`
(exact rationals), Python `int()` truncation as `pyInt`, dictionaries with
possibly-missing keys as structures of `Option` fields (`dict.get(k, d)`
becomes `Option.getD`), and every effectful call (HTTP requests, clock,
sleeps) as an explicit environment record passed to the embedded function.
Timestamp fields (ISO-8601 parsing, `datetime.now()`) are omitted from the
embedded records: no claim under verification concerns them.  Python's
`"%.1f"` string formatting is rendered with `toString` of the exact
rational; message strings are otherwise kept structurally faithful.
-/

namespace Estufa

/-- Python `int()` applied to a float: truncation toward zero.  On the
reduced fraction `num/den` this is T-division of the numerator by the
denominator. -/
def pyInt (q : Rat) : Int := q.num.tdiv q.den

/-- One row of `PlantKnowledgeBase.PLANT_IDEAL_MOISTURE`:
moisture band `{min, ideal, max}` in percent. -/
structure PlantProfile where
  min : Rat
  ideal : Rat
  max : Rat
deriving DecidableEq, Repr

/-- The static table `PlantKnowledgeBase.PLANT_IDEAL_MOISTURE`
(irrigation_service.py lines 102-111), in source order. -/
def PLANT_IDEAL_MOISTURE : List (String × PlantProfile) :=
  [("default", ⟨40, 60, 80⟩),
   ("tomato", ⟨50, 70, 85⟩),
   ("lettuce", ⟨60, 75, 90⟩),
   ("pepper", ⟨45, 65, 80⟩),
   ("basil", ⟨40, 60, 75⟩),
   ("strawberry", ⟨55, 70, 85⟩),
   ("cucumber", ⟨60, 75, 90⟩),
   ("herbs", ⟨35, 55, 70⟩)]

/-- Fallback profile: the `"default"` entry of the table, used as the `dict.get` fallback. -/
def defaultProfile : PlantProfile := ⟨40, 60, 80⟩

/-- Python `str.lower()`: lowercase character by character (written over
the character list so that it is computable by the kernel). -/
def pyLower (s : String) : String := ⟨s.data.map Char.toLower⟩

/-- Embeds `PlantKnowledgeBase.get_ideal_moisture` (lines 113-117):
lowercases the tag (a falsy/empty tag becomes `"default"`) and looks it up,
falling back to the `"default"` row on a miss. -/
def get_ideal_moisture (plant_type : String) : PlantProfile :=
  let plant_key := if plant_type = "" then "default" else pyLower plant_type
  (PLANT_IDEAL_MOISTURE.lookup plant_key).getD defaultProfile

/-- Embeds `PlantKnowledgeBase.calculate_target_moisture` (lines 119-150).
`current_moisture` is accepted but unused, exactly as in the source. -/
def calculate_target_moisture (current_moisture : Rat) (plant_type : String)
    (time_of_day : Int) (temperature : Rat) : Rat :=
  let ideal := get_ideal_moisture plant_type
  let base_target := ideal.ideal
  let time_factor : Rat := if 6 ≤ time_of_day ∧ time_of_day ≤ 18 then 1 else 0.9
  let temp_factor : Rat :=
    if temperature > 30 then 1.1 else if temperature < 20 then 0.9 else 1
  let target := base_target * time_factor * temp_factor
  max ideal.min (Min.min ideal.max target)

/-- Embeds `SensorReading` (lines 31-38); the timestamp field is omitted
(no claim concerns it). -/
structure SensorReading where
  air_temperature : Rat
  air_humidity : Rat
  soil_moisture : Rat
  soil_temperature : Rat
deriving DecidableEq, Repr

/-- The raw JSON object a reading is parsed from: each numeric key may be
absent (`none`). -/
structure RawReading where
  airTemperature : Option Rat
  airHumidity : Option Rat
  soilMoisture : Option Rat
  soilTemperature : Option Rat
deriving DecidableEq, Repr

/-- The argument of `SensorReading.from_api_response`: a JSON object that
may carry a nested `latestReading` object; its own top-level numeric keys
are the fallback (`data.get('latestReading', data)`). -/
structure ApiData where
  latestReading : Option RawReading
  top : RawReading
deriving DecidableEq, Repr

/-- Embeds `SensorReading.from_api_response` (lines 40-52): pick the nested
`latestReading` object when the key is present, the top level otherwise,
and default every absent numeric field to `0`. -/
def from_api_response (data : ApiData) : SensorReading :=
  let reading := data.latestReading.getD data.top
  { air_temperature := reading.airTemperature.getD 0
    air_humidity := reading.airHumidity.getD 0
    soil_moisture := reading.soilMoisture.getD 0
    soil_temperature := reading.soilTemperature.getD 0 }

/-- The per-greenhouse configuration dict built by `configure_greenhouse`
(lines 214-224).  Fields are `Option` because `analyze_irrigation_need`
reads the dict with `config.get(...)`, which an unconfigured greenhouse
(empty dict) answers with `None`.  `configured_at` is omitted. -/
structure IrrigationConfig where
  esp32_url : Option String
  plant_type : Option String
  pulse_duration : Option Rat
  pulse_wait : Option Rat
  max_pulses : Option Int
  auto_irrigate : Option Bool
  check_interval : Option Int
  target_moisture : Option Rat
deriving DecidableEq, Repr

/-- The empty config dict `self.irrigation_config.get(greenhouse_id, {})`
yields for an unconfigured greenhouse. -/
def emptyConfig : IrrigationConfig :=
  ⟨none, none, none, none, none, none, none, none⟩

/-- Embeds `SmartIrrigationService.configure_greenhouse` (lines 194-235), as the
pure construction of the config dict.  Python's `x or DEFAULT` maps a
missing (`none`) or zero argument to the default; `target_moisture`
defaults to the plant's `ideal` only when the argument is `None`
(`is None` check, so an explicit `0` is kept). -/
def configure_greenhouse (esp32_ip : String) (esp32_port : Int)
    (plant_type : String) (pulse_duration : Option Rat)
    (pulse_wait : Option Rat) (max_pulses : Option Int)
    (auto_irrigate : Bool) (check_interval : Option Int)
    (target_moisture : Option Rat) : IrrigationConfig :=
  let tm := match target_moisture with
    | none => (get_ideal_moisture plant_type).ideal
    | some t => t
  { esp32_url := some ("http://" ++ esp32_ip ++ ":" ++ toString esp32_port)
    plant_type := some plant_type
    pulse_duration := some (match pulse_duration with
      | none => 1
      | some p => if p = 0 then 1 else p)
    pulse_wait := some (match pulse_wait with
      | none => 30
      | some w => if w = 0 then 30 else w)
    max_pulses := some (match max_pulses with
      | none => 15
      | some m => if m = 0 then 15 else m)
    auto_irrigate := some auto_irrigate
    check_interval := some (match check_interval with
      | none => 300
      | some c => if c = 0 then 300 else c)
    target_moisture := some tm }

/-- Embeds `IrrigationDecision` (lines 64-75). -/
structure IrrigationDecision where
  needs_irrigation : Bool
  current_moisture : Rat
  target_moisture : Rat
  predicted_moisture : Option Rat
  confidence : Rat
  recommendation : String
  urgency : String
  pulse_count : Int
  pulse_duration : Rat
deriving DecidableEq, Repr

/-- The effectful inputs of `analyze_irrigation_need`: the result of
`get_current_reading` (None on any fetch failure), the result of
`predict_moisture` (None when the model or history is unavailable), and
`datetime.now().hour`. -/
structure AnalyzeEnv where
  reading : Option SensorReading
  predictions : Option (List Rat)
  now_hour : Int
deriving DecidableEq, Repr

/-- Embeds `np.mean` of a list. -/
def listMean (xs : List Rat) : Rat := xs.sum / (xs.length : Rat)

/-- Embeds `SmartIrrigationService.analyze_irrigation_need` (lines 331-425),
with the two effectful calls and the clock supplied by `env`. -/
def analyze_irrigation_need (config : IrrigationConfig) (env : AnalyzeEnv) :
    IrrigationDecision :=
  let plant_type := config.plant_type.getD "default"
  match env.reading with
  | none =>
    { needs_irrigation := false
      current_moisture := 0
      target_moisture := 0
      predicted_moisture := none
      confidence := 0
      recommendation := "Erro: nao foi possivel obter leitura dos sensores"
      urgency := "low"
      pulse_count := 0
      pulse_duration := 0 }
  | some reading =>
    let current_moisture := reading.soil_moisture
    let target_moisture := match config.target_moisture with
      | some t => t
      | none => calculate_target_moisture current_moisture plant_type
          env.now_hour reading.air_temperature
    let predicted_avg : Option Rat := match env.predictions with
      | some ps => if ps ≠ [] then some (listMean (ps.take 6)) else none
      | none => none
    let pulse_duration := config.pulse_duration.getD 1
    let moisture_deficit := target_moisture - current_moisture
    let needs_irrigation : Bool := decide (moisture_deficit > 0)
    let urgency : String :=
      if moisture_deficit > 0 then
        if moisture_deficit > 30 then "critical"
        else if moisture_deficit > 15 then "high"
        else if moisture_deficit > 5 then "medium"
        else "low"
      else "low"
    let confidence : Rat :=
      if moisture_deficit > 0 then
        if moisture_deficit > 30 then 0.95
        else if moisture_deficit > 15 then 0.90
        else if moisture_deficit > 5 then 0.85
        else 0.80
      else 0.85
    let recommendation : String :=
      if moisture_deficit > 0 then
        if moisture_deficit > 30 then
          "CRITICO: " ++ toString current_moisture ++ "% -> alvo " ++
            toString target_moisture ++ "% (deficit: " ++ toString moisture_deficit ++ "%)"
        else if moisture_deficit > 15 then
          "URGENTE: " ++ toString current_moisture ++ "% -> alvo " ++
            toString target_moisture ++ "% (deficit: " ++ toString moisture_deficit ++ "%)"
        else if moisture_deficit > 5 then
          "Recomendado: " ++ toString current_moisture ++ "% -> alvo " ++
            toString target_moisture ++ "%"
        else
          "Ajuste fino: " ++ toString current_moisture ++ "% -> alvo " ++
            toString target_moisture ++ "%"
      else
        "OK: Umidade atual (" ++ toString current_moisture ++ "%) >= alvo (" ++
          toString target_moisture ++ "%)"
    let recommendation : String := match env.predictions with
      | some ps =>
        if ps ≠ [] ∧ needs_irrigation then
          match ps.head? with
          | some p =>
            if p ≠ 0 then
              recommendation ++ " | LSTM preve " ++ toString p ++ "% em 1h"
            else recommendation
          | none => recommendation
        else recommendation
      | none => recommendation
    let pulse_count : Int :=
      if needs_irrigation then
        let effect_per_pulse := 1.5 * pulse_duration
        let pulses_needed := pyInt (moisture_deficit / effect_per_pulse) + 1
        Max.max 1 (Min.min pulses_needed (config.max_pulses.getD 15))
      else 0
    { needs_irrigation := needs_irrigation
      current_moisture := current_moisture
      target_moisture := target_moisture
      predicted_moisture := predicted_avg
      confidence := confidence
      recommendation := recommendation
      urgency := urgency
      pulse_count := pulse_count
      pulse_duration := pulse_duration }

/-- Embeds `IrrigationStatus` (lines 22-28). -/
inductive IrrigationStatus where
  | idle
  | analyzing
  | irrigating
  | waiting
  | error
deriving DecidableEq, Repr

/-- Outcome of one `requests.post` to the actuator: an HTTP status code,
or a raised exception (connection error / timeout) carrying its message. -/
inductive PostResult where
  | ok (code : Int)
  | exn (msg : String)
deriving DecidableEq, Repr

/-- The payload of one `_report_irrigation_to_backend` call, restricted to
the fields the claims mention (`plantType`/`esp32Ip` and the None-stripping
of the JSON body are omitted). -/
structure IrrigationReport where
  status : String
  duration_ms : Int
  pulse_count : Int
  moisture_before : Option Rat
  moisture_after : Option Rat
  target_moisture : Option Rat
  error_message : Option String
deriving DecidableEq, Repr

/-- Externally visible actions of the pulse executor: pump activations
(with their JSON body, keys mapped to integer values) and irrigation
reports. -/
inductive ExecEvent where
  | activatePump (url : String) (body : List (String × Int))
  | report (r : IrrigationReport)
deriving DecidableEq, Repr

/-- The reports among a list of events. -/
def reportsOf (evs : List ExecEvent) : List IrrigationReport :=
  evs.filterMap fun e => match e with
    | .report r => some r
    | _ => none

/-- The pump activations among a list of events. -/
def activationsOf (evs : List ExecEvent) : List (String × List (String × Int)) :=
  evs.filterMap fun e => match e with
    | .activatePump u b => some (u, b)
    | _ => none

/-- The effectful inputs of `execute_irrigation`: the initial sensor fetch,
the actuator's answer to the i-th pump activation, the sensor fetch after
the wait following the i-th pulse, and the final stabilization fetch. -/
structure ExecEnv where
  reading_before : Option SensorReading
  pulse_response : Nat → PostResult
  mid_reading : Nat → Option SensorReading
  final_reading : Option SensorReading

/-- Accumulated state of the pulse `for` loop, plus the exception that
aborted it, if any. -/
structure PulseLoopOut where
  pulses : Int
  total : Rat
  events : List ExecEvent
  exn : Option String
deriving DecidableEq, Repr

/-- Embeds the `for i in range(decision.pulse_count)` loop of `execute_irrigation`
(lines 473-497).  `remaining` counts the iterations still to run after the
current one (so the inter-pulse wait and re-read happen iff
`remaining > 0`, the source's `i < pulse_count - 1`); `i` is the source's
loop index.  A non-200 status is merely not counted; a raised exception
aborts; a re-read at or above target breaks early. -/
def pulseLoop (env : ExecEnv) (url : String) (body : List (String × Int))
    (dur target : Rat) :
    Nat → Nat → Int → Rat → List ExecEvent → PulseLoopOut
  | 0, _, pulses, total, evs => ⟨pulses, total, evs, none⟩
  | remaining + 1, i, pulses, total, evs =>
    let evs' := evs ++ [.activatePump url body]
    match env.pulse_response i with
    | .exn msg => ⟨pulses, total, evs', some msg⟩
    | .ok code =>
      let pulses' := if code = 200 then pulses + 1 else pulses
      let total' := if code = 200 then total + dur else total
      if remaining > 0 then
        match env.mid_reading i with
        | some r =>
          if r.soil_moisture ≥ target then ⟨pulses', total', evs', none⟩
          else pulseLoop env url body dur target remaining (i + 1) pulses' total' evs'
        | none => pulseLoop env url body dur target remaining (i + 1) pulses' total' evs'
      else pulseLoop env url body dur target remaining (i + 1) pulses' total' evs'

/-- Embeds `IrrigationResult` (lines 81-90); timestamp omitted. -/
structure IrrigationResult where
  success : Bool
  pulses_executed : Int
  total_duration : Rat
  moisture_before : Rat
  moisture_after : Rat
  message : String
deriving DecidableEq, Repr

/-- Embeds `SmartIrrigationService.execute_irrigation` (lines 427-555), for a
caller-supplied decision (the `decision is None → analyze` shortcut is the
composition with `analyze_irrigation_need`).  `st` is `self.status` on
entry; the returned status is `self.status` on exit.  The source writes
`self.status` (lines 463, 490, 505, 531) but never reads it, so the early
returns leave `st` untouched and the two terminal paths end in `idle`
(success) or `error` (exception).  Note the multi-pulse activation body
carries the key `"duration"` (line 477), unlike `_execute_single_pulse`. -/
def execute_irrigation (config : IrrigationConfig)
    (decision : IrrigationDecision) (env : ExecEnv) (st : IrrigationStatus) :
    IrrigationResult × List ExecEvent × IrrigationStatus :=
  match config.esp32_url with
  | none =>
    (⟨false, 0, 0, 0, 0, "Erro: ESP32 nao configurado para esta greenhouse"⟩,
      [], st)
  | some esp32_url =>
    let moisture_before := match env.reading_before with
      | some r => r.soil_moisture
      | none => 0
    if decision.needs_irrigation = false then
      (⟨true, 0, 0, moisture_before, moisture_before, "Irrigacao nao necessaria"⟩,
        [], st)
    else
      let pulse_duration := decision.pulse_duration
      let body : List (String × Int) := [("duration", pyInt (pulse_duration * 1000))]
      let out := pulseLoop env (esp32_url ++ "/pump/activate") body pulse_duration
        decision.target_moisture decision.pulse_count.toNat 0 0 0 []
      match out.exn with
      | none =>
        let moisture_after := match env.final_reading with
          | some r => r.soil_moisture
          | none => moisture_before
        let rep : IrrigationReport :=
          ⟨"success", pyInt (out.total * 1000), out.pulses, some moisture_before,
            some moisture_after, some decision.target_moisture, none⟩
        (⟨true, out.pulses, out.total, moisture_before, moisture_after,
            "Irrigacao completa: " ++ toString moisture_before ++ "% -> " ++
              toString moisture_after ++ "%"⟩,
          out.events ++ [.report rep], .idle)
      | some msg =>
        let rep : IrrigationReport :=
          ⟨"failed", pyInt (out.total * 1000), out.pulses, some moisture_before,
            none, some decision.target_moisture, some msg⟩
        (⟨false, out.pulses, out.total, moisture_before, moisture_before,
            "Erro: " ++ msg⟩,
          out.events ++ [.report rep], .error)

/-- The effectful inputs of `_execute_single_pulse`: the pre-read and the
actuator's answer. -/
structure SingleEnv where
  reading : Option SensorReading
  response : PostResult
deriving Repr

/-- Embeds `SmartIrrigationService._execute_single_pulse` (lines 686-762): one
pump activation with body key `"duration_ms"`, reporting `success` on
HTTP 200 and `failed` otherwise (or on a raised exception). -/
def execute_single_pulse (config : IrrigationConfig) (env : SingleEnv) :
    Bool × List ExecEvent :=
  match config.esp32_url with
  | none => (false, [])
  | some esp32_url =>
    let pulse_duration := config.pulse_duration.getD 1
    let moisture_before := match env.reading with
      | some r => r.soil_moisture
      | none => 0
    let target_moisture := config.target_moisture.getD 50
    let duration_ms := pyInt (pulse_duration * 1000)
    let payload : List (String × Int) := [("duration_ms", duration_ms)]
    let ev := ExecEvent.activatePump (esp32_url ++ "/pump/activate") payload
    match env.response with
    | .ok code =>
      if code = 200 then
        (true, [ev, .report ⟨"success", duration_ms, 1, some moisture_before,
          none, some target_moisture, none⟩])
      else
        (false, [ev, .report ⟨"failed", 0, 0, some moisture_before, none,
          some target_moisture,
          some ("ESP32 returned " ++ toString code)⟩])
    | .exn msg =>
      (false, [ev, .report ⟨"failed", 0, 0, some moisture_before, none,
        some target_moisture, some msg⟩])

/-- The effectful inputs of `_check_and_send_prediction`: the forecaster's
output, the sensor fetch, the backend's answer to the notification post
(HTTP status plus the `success`/`skipped` flags of its JSON body), and
whether any of these raised (the body-wide `except` returns `False`). -/
structure PredictionEnv where
  predictions : Option (List Rat)
  reading : Option SensorReading
  http_status : Int
  resp_success : Bool
  resp_skipped : Bool
  raised : Bool
deriving DecidableEq, Repr

/-- Embeds `SmartIrrigationService._check_and_send_prediction` (lines 764-857) as
its boolean outcome: `true` iff a risk class matched and the backend
answered 201 with `success` and without `skipped`.  The `elif` arm for
"conditions are good" and the `prediction_type is None` fall-through both
return `False` and are merged into the final `none` case. -/
def check_and_send_prediction (config : IrrigationConfig)
    (decision : IrrigationDecision) (env : PredictionEnv) : Bool :=
  if env.raised then false
  else match env.predictions with
  | none => false
  | some ps =>
    if ps.length < 6 then false
    else match env.reading with
    | none => false
    | some reading =>
      let current_moisture := reading.soil_moisture
      let target_moisture := config.target_moisture.getD 50
      let predicted_6h := ps.getD 5 0
      let moisture_drop_6h := current_moisture - predicted_6h
      let prediction_type : Option String :=
        if moisture_drop_6h > 15 ∧ predicted_6h < target_moisture then
          some "moisture_drop"
        else if reading.air_temperature > 30 ∧ moisture_drop_6h > 10 then
          some "temperature_rise"
        else if reading.air_humidity < 40 ∧ moisture_drop_6h > 8 then
          some "humidity_drop"
        else none
      match prediction_type with
      | none => false
      | some _ =>
        decide (env.http_status = 201) && env.resp_success && !env.resp_skipped

/-- Embeds `PREDICTION_COOLDOWN` (line 624): 7200 seconds. -/
def PREDICTION_COOLDOWN : Rat := 7200

/-- One supervisor tick of `_monitoring_loop` as seen by one greenhouse's
prediction gate: the wall-clock time `time.time()` at the tick and the
inputs `_check_and_send_prediction` would consume. -/
structure GateTick where
  time : Rat
  config : IrrigationConfig
  decision : IrrigationDecision
  env : PredictionEnv

/-- The prediction-gate slice of `_monitoring_loop` (lines 622-652) for one
greenhouse: fold over the ticks carrying `last_prediction_time` (initially
the dict-miss default `0`); a tick sends only when
`time - last > PREDICTION_COOLDOWN`, and advances `last` only when
`_check_and_send_prediction` returned `true`.  Returns the times of the
accepted notifications. -/
def gateAccepted : Rat → List GateTick → List Rat
  | _, [] => []
  | last, t :: ts =>
    if t.time - last > PREDICTION_COOLDOWN then
      if check_and_send_prediction t.config t.decision t.env then
        t.time :: gateAccepted t.time ts
      else gateAccepted last ts
    else gateAccepted last ts

/-! ## Concrete fixtures used by witnesses and counterexamples -/

/-- Fixture: a configured greenhouse with an explicit 42% target, 1 s
pulses, at most 15 pulses. -/
def cfgA : IrrigationConfig :=
  ⟨some "http://1.2.3.4:8080", some "default", some 1, some 30, some 15,
    some false, some 300, some 42⟩

/-- Fixture: a reading with soil moisture 40% and air temperature 25 °C. -/
def readingA : SensorReading := ⟨25, 50, 40, 22⟩

/-- Fixture: `analyze` inputs with `readingA` available and no forecast. -/
def envA : AnalyzeEnv := ⟨some readingA, none, 12⟩

/-- Fixture: `analyze` inputs where the sensor fetch failed. -/
def envNoReading : AnalyzeEnv := ⟨none, none, 12⟩

/-- Fixture: a decision requiring one 1-second pulse toward a 42% target. -/
def decisionA : IrrigationDecision := ⟨true, 40, 42, none, 0.80, "", "low", 1, 1⟩

/-- Fixture: executor inputs where the actuator answers HTTP 500 to every
activation. -/
def execEnv500 : ExecEnv := ⟨some readingA, fun _ => .ok 500, fun _ => none, none⟩

/-- Fixture: executor inputs where the actuator answers HTTP 200 to every
activation. -/
def execEnv200 : ExecEnv := ⟨some readingA, fun _ => .ok 200, fun _ => none, none⟩

/-- Fixture: executor inputs where every activation raises a connection
error. -/
def execEnvExn : ExecEnv :=
  ⟨some readingA, fun _ => .exn "connection refused", fun _ => none, none⟩

/-- Fixture: single-pulse inputs with an HTTP 200 answer. -/
def singleEnv200 : SingleEnv := ⟨some readingA, .ok 200⟩

/-! ## Helper lemmas -/

theorem pyInt_eq_floor (q : Rat) (h : 0 ≤ q) : pyInt q = ⌊q⌋ := by
  have hq : 0 ≤ q.num := Rat.num_nonneg.mpr h
  rw [pyInt, Int.tdiv_eq_ediv hq (Int.natCast_nonneg q.den)]
  conv_rhs => rw [← Rat.num_div_den q]
  rw [Rat.floor_intCast_div_natCast]

theorem lookup_forall {α β : Type} [BEq α] (P : β → Prop) :
    ∀ l : List (α × β), (∀ ab ∈ l, P ab.2) → ∀ k b, l.lookup k = some b → P b := by
  intro l
  induction l with
  | nil => intro _ k b hb; simp [List.lookup] at hb
  | cons hd tl ih =>
    intro hall k b hb
    rw [List.lookup] at hb
    rcases hmatch : k == hd.1 with _ | _
    · rw [hmatch] at hb
      exact ih (fun ab hab => hall ab (List.mem_cons_of_mem hd hab)) k b hb
    · rw [hmatch] at hb
      obtain rfl : hd.2 = b := by simpa using hb
      exact hall hd (List.mem_cons_self hd tl)

theorem profile_ordered (s : String) :
    (get_ideal_moisture s).min ≤ (get_ideal_moisture s).ideal ∧
      (get_ideal_moisture s).ideal ≤ (get_ideal_moisture s).max := by
  have htable : ∀ ab ∈ PLANT_IDEAL_MOISTURE,
      ab.2.min ≤ ab.2.ideal ∧ ab.2.ideal ≤ ab.2.max := by decide
  rw [get_ideal_moisture]
  rcases hk : PLANT_IDEAL_MOISTURE.lookup
      (if s = "" then "default" else pyLower s) with _ | p
  · simp only [hk, Option.getD_none]
    constructor <;> norm_num [defaultProfile]
  · simp only [hk, Option.getD_some]
    exact lookup_forall (fun q => q.min ≤ q.ideal ∧ q.ideal ≤ q.max)
      PLANT_IDEAL_MOISTURE htable _ p hk

theorem profile_min_le_max (s : String) :
    (get_ideal_moisture s).min ≤ (get_ideal_moisture s).max :=
  le_trans (profile_ordered s).1 (profile_ordered s).2

theorem calculate_target_in_range (cm : Rat) (s : String) (h : Int) (t : Rat) :
    (get_ideal_moisture s).min ≤ calculate_target_moisture cm s h t ∧
      calculate_target_moisture cm s h t ≤ (get_ideal_moisture s).max := by
  rw [calculate_target_moisture]
  exact ⟨le_max_left _ _,
    max_le (profile_min_le_max s) (min_le_left _ _)⟩

/-! ## C1: urgency and confidence thresholds of the decision engine -/

/-- C1.  For every configured greenhouse whose latest reading is available,
`analyze_irrigation_need` classifies by the moisture deficit
`targetMoisture - latest.soilMoisture`: no deficit gives
`needsIrrigation = false`, confidence `0.85`, urgency `low`; a positive
deficit gives `needsIrrigation = true` with urgency/confidence
`critical`/`0.95` above `30`, `high`/`0.90` above `15`, `medium`/`0.85`
above `5`, and `low`/`0.80` otherwise. -/
theorem analyze_thresholds (config : IrrigationConfig) (env : AnalyzeEnv)
    (r : SensorReading) (h : env.reading = some r) :
    (analyze_irrigation_need config env).needs_irrigation =
      decide ((analyze_irrigation_need config env).target_moisture - r.soil_moisture > 0) ∧
    (analyze_irrigation_need config env).urgency =
      (if (analyze_irrigation_need config env).target_moisture - r.soil_moisture > 0 then
        if (analyze_irrigation_need config env).target_moisture - r.soil_moisture > 30 then "critical"
        else if (analyze_irrigation_need config env).target_moisture - r.soil_moisture > 15 then "high"
        else if (analyze_irrigation_need config env).target_moisture - r.soil_moisture > 5 then "medium"
        else "low"
      else "low") ∧
    (analyze_irrigation_need config env).confidence =
      (if (analyze_irrigation_need config env).target_moisture - r.soil_moisture > 0 then
        if (analyze_irrigation_need config env).target_moisture - r.soil_moisture > 30 then 0.95
        else if (analyze_irrigation_need config env).target_moisture - r.soil_moisture > 15 then 0.90
        else if (analyze_irrigation_need config env).target_moisture - r.soil_moisture > 5 then 0.85
        else 0.80
      else 0.85) := by
  refine ⟨?_, ?_, ?_⟩ <;> simp only [analyze_irrigation_need, h]

/-- Closed witness for `analyze_thresholds`: a greenhouse targeting 42%
with soil at 40% (deficit 2). -/
theorem analyze_thresholds_witness :
    envA.reading = some readingA ∧
    ((analyze_irrigation_need cfgA envA).needs_irrigation =
      decide ((analyze_irrigation_need cfgA envA).target_moisture -
        readingA.soil_moisture > 0)) := by
  refine ⟨rfl, ?_⟩
  exact (analyze_thresholds cfgA envA readingA rfl).1

/-! ## C2: pulse dosing formula -/

theorem pulse_dosing_core (d pd : Rat) (mp : Int) (hpd : 0 < pd) (hmp : 1 ≤ mp) :
    ((if decide (d > 0) = true then
        Max.max 1 (Min.min (pyInt (d / (1.5 * pd)) + 1) mp) else 0) =
      (if 0 < d then Max.max 1 (Min.min (⌊d / (1.5 * pd)⌋ + 1) mp) else 0)) ∧
    0 ≤ (if decide (d > 0) = true then
        Max.max 1 (Min.min (pyInt (d / (1.5 * pd)) + 1) mp) else 0) ∧
    (if decide (d > 0) = true then
        Max.max 1 (Min.min (pyInt (d / (1.5 * pd)) + 1) mp) else 0) ≤ mp ∧
    ((if decide (d > 0) = true then
        Max.max 1 (Min.min (pyInt (d / (1.5 * pd)) + 1) mp) else 0) = 0 ↔
      decide (d > 0) = false) := by
  by_cases hd : 0 < d
  · have hb : decide (d > 0) = true := decide_eq_true hd
    have hq : (0 : Rat) ≤ d / (1.5 * pd) := by
      apply div_nonneg hd.le
      nlinarith
    have hone : (1 : Int) ≤ Max.max 1 (Min.min (pyInt (d / (1.5 * pd)) + 1) mp) :=
      le_max_left _ _
    refine ⟨?_, ?_, ?_, ?_⟩
    · rw [if_pos hb, if_pos hd, pyInt_eq_floor _ hq]
    · rw [if_pos hb]; omega
    · rw [if_pos hb]
      exact max_le hmp (min_le_right _ _)
    · rw [if_pos hb, hb]
      constructor
      · intro h0; omega
      · intro h0; exact absurd h0 (by simp)
  · have hb : decide (d > 0) = false := decide_eq_false hd
    refine ⟨?_, ?_, ?_, ?_⟩
    · rw [if_neg (by simp [hb]), if_neg hd]
    · rw [if_neg (by simp [hb])]
    · rw [if_neg (by simp [hb])]; omega
    · rw [if_neg (by simp [hb]), hb]
      simp

/-- C2 (amended).  For a decision computed from an available reading, with
a positive pulse duration and an effective pulse cap of at least one,
`pulseCount` is `0` when the deficit is not positive and otherwise
`clamp(⌊deficit / (1.5 × pulseDuration)⌋ + 1, 1, maxPulses)` — the source
truncates `deficit / gain` with Python `int()` (floor, for a positive
deficit) instead of the claimed ceiling; consequently
`pulseCount ∈ [0, maxPulses]` and `pulseCount = 0` iff
`needsIrrigation = false`. -/
theorem analyze_pulse_dosing (config : IrrigationConfig) (env : AnalyzeEnv)
    (r : SensorReading) (h : env.reading = some r)
    (hpd : 0 < config.pulse_duration.getD 1)
    (hmp : 1 ≤ config.max_pulses.getD 15) :
    ((analyze_irrigation_need config env).pulse_count =
      if 0 < (analyze_irrigation_need config env).target_moisture - r.soil_moisture then
        Max.max 1 (Min.min
          (⌊((analyze_irrigation_need config env).target_moisture - r.soil_moisture) /
              (1.5 * config.pulse_duration.getD 1)⌋ + 1)
          (config.max_pulses.getD 15))
      else 0) ∧
    0 ≤ (analyze_irrigation_need config env).pulse_count ∧
    (analyze_irrigation_need config env).pulse_count ≤ config.max_pulses.getD 15 ∧
    ((analyze_irrigation_need config env).pulse_count = 0 ↔
      (analyze_irrigation_need config env).needs_irrigation = false) := by
  have hcore := pulse_dosing_core
    ((analyze_irrigation_need config env).target_moisture - r.soil_moisture)
    (config.pulse_duration.getD 1) (config.max_pulses.getD 15) hpd hmp
  simp only [analyze_irrigation_need, h] at hcore ⊢
  exact hcore

/-- Closed witness for `analyze_pulse_dosing`: the 42%-target greenhouse
with soil at 40%. -/
theorem analyze_pulse_dosing_witness :
    envA.reading = some readingA ∧
    0 < cfgA.pulse_duration.getD 1 ∧
    1 ≤ cfgA.max_pulses.getD 15 ∧
    ((analyze_irrigation_need cfgA envA).pulse_count =
      if 0 < (analyze_irrigation_need cfgA envA).target_moisture - readingA.soil_moisture then
        Max.max 1 (Min.min
          (⌊((analyze_irrigation_need cfgA envA).target_moisture - readingA.soil_moisture) /
              (1.5 * cfgA.pulse_duration.getD 1)⌋ + 1)
          (cfgA.max_pulses.getD 15))
      else 0) := by
  refine ⟨rfl, by norm_num [cfgA], by norm_num [cfgA], ?_⟩
  exact (analyze_pulse_dosing cfgA envA readingA rfl (by norm_num [cfgA])
    (by norm_num [cfgA])).1

/-- C2 counterexample.  With target 42%, soil 40% (deficit 2), pulse
duration 1 s and cap 15, the code computes `pulseCount = 2`
(`int(2/1.5) + 1`), while the claimed formula
`clamp(⌈2/1.5⌉ + 1, 1, 15)` gives `3`. -/
theorem analyze_pulse_dosing_counterexample :
    (analyze_irrigation_need cfgA envA).needs_irrigation = true ∧
    (analyze_irrigation_need cfgA envA).pulse_count = 2 ∧
    Max.max 1 (Min.min
      (⌈((analyze_irrigation_need cfgA envA).target_moisture -
          readingA.soil_moisture) / (1.5 * cfgA.pulse_duration.getD 1)⌉ + 1)
      (cfgA.max_pulses.getD 15)) = 3 := by
  have ht : (analyze_irrigation_need cfgA envA).target_moisture = 42 := by
    norm_num [analyze_irrigation_need, cfgA, envA, readingA]
  refine ⟨?_, ?_, ?_⟩
  · norm_num [analyze_irrigation_need, cfgA, envA, readingA]
  · norm_num [analyze_irrigation_need, cfgA, envA, readingA, pyInt]
    all_goals decide
  · rw [ht]
    have hc : ⌈((42 : Rat) - readingA.soil_moisture) / (1.5 * cfgA.pulse_duration.getD 1)⌉ = 2 := by
      norm_num [readingA, cfgA, Int.ceil_eq_iff]
    rw [hc]
    norm_num [cfgA]

/-! ## C7: target-moisture clamp -/

/-- C7 (amended).  When a reading is available and no explicit target is
configured, the decision's `targetMoisture` comes from
`calculate_target_moisture` and therefore lies within
`[profile.min, profile.max]` of the active plant profile.  (The error
decision returned when no reading can be obtained instead reports
`targetMoisture = 0`, and an explicitly configured target is passed
through unclamped.) -/
theorem analyze_target_clamped (config : IrrigationConfig) (env : AnalyzeEnv)
    (r : SensorReading) (h : env.reading = some r)
    (htm : config.target_moisture = none) :
    (get_ideal_moisture (config.plant_type.getD "default")).min ≤
      (analyze_irrigation_need config env).target_moisture ∧
    (analyze_irrigation_need config env).target_moisture ≤
      (get_ideal_moisture (config.plant_type.getD "default")).max := by
  simp only [analyze_irrigation_need, h, htm]
  exact calculate_target_in_range _ _ _ _

/-- Fixture: a tomato greenhouse with no explicit target configured. -/
def cfgB : IrrigationConfig :=
  ⟨some "http://1.2.3.4:8080", some "tomato", some 1, some 30, some 15,
    some false, some 300, none⟩

/-- Closed witness for `analyze_target_clamped`: the no-explicit-target
tomato greenhouse with `readingA` available. -/
theorem analyze_target_clamped_witness :
    envA.reading = some readingA ∧
    cfgB.target_moisture = none ∧
    ((get_ideal_moisture (cfgB.plant_type.getD "default")).min ≤
      (analyze_irrigation_need cfgB envA).target_moisture ∧
    (analyze_irrigation_need cfgB envA).target_moisture ≤
      (get_ideal_moisture (cfgB.plant_type.getD "default")).max) :=
  ⟨rfl, rfl, analyze_target_clamped cfgB envA readingA rfl rfl⟩

/-- C7 counterexample.  The error decision produced when the sensor fetch
fails reports `targetMoisture = 0`, below the default profile's minimum of
40%, so not every decision's target lies in `[profile.min, profile.max]`. -/
theorem analyze_target_clamped_counterexample :
    (analyze_irrigation_need cfgA envNoReading).target_moisture = 0 ∧
    (get_ideal_moisture (cfgA.plant_type.getD "default")).min = 40 ∧
    ¬((get_ideal_moisture (cfgA.plant_type.getD "default")).min ≤
        (analyze_irrigation_need cfgA envNoReading).target_moisture) := by
  decide

/-! ## C9: target-moisture adjustment function against the spec wording -/

/-- Modelled from the spec (§4.1): profile lookup, "case-insensitive;
falls back to `default` on miss" — look the lowercased tag up in the
(lowercase-keyed) table and fall back to the default profile. -/
def spec_profile (plant_type : String) : PlantProfile :=
  (PLANT_IDEAL_MOISTURE.lookup (pyLower plant_type)).getD defaultProfile

/-- Modelled from the spec (§4.1): start from `profile.ideal`, apply the
night penalty (×1.0 for hours 6–18, ×0.9 otherwise), then the temperature
factor (×1.1 above 30 °C, ×0.9 below 20 °C, ×1.0 otherwise), and clamp the
product into `[profile.min, profile.max]`. -/
def spec_targetMoisture (plant_type : String) (hourOfDay : Int)
    (airTempC : Rat) : Rat :=
  let p := spec_profile plant_type
  let afterNight := p.ideal * (if 6 ≤ hourOfDay ∧ hourOfDay ≤ 18 then 1 else 0.9)
  let afterTemp := afterNight *
    (if airTempC > 30 then 1.1 else if airTempC < 20 then 0.9 else 1)
  Min.min p.max (Max.max p.min afterTemp)

theorem clamp_comm (lo hi x : Rat) (h : lo ≤ hi) :
    Max.max lo (Min.min hi x) = Min.min hi (Max.max lo x) := by
  rw [max_min_distrib_left, max_eq_right h]

/-- C9.  For every plant type, hour in `[0, 23]` and air temperature, the
Plant Knowledge Table's target-moisture function agrees with the spec's
four-step description (ideal, night penalty, temperature factor, clamp into
`[profile.min, profile.max]`, profile looked up case-insensitively with
default fallback). -/
theorem target_moisture_refines_spec (cm : Rat) (pt : String) (hour : Int)
    (temp : Rat) (h0 : 0 ≤ hour) (h23 : hour ≤ 23) :
    calculate_target_moisture cm pt hour temp = spec_targetMoisture pt hour temp := by
  have hprof : get_ideal_moisture pt = spec_profile pt := by
    by_cases hpt : pt = ""
    · subst hpt; decide
    · simp only [get_ideal_moisture, spec_profile, if_neg hpt]
  have hord := profile_min_le_max pt
  rw [calculate_target_moisture, spec_targetMoisture, ← hprof]
  exact clamp_comm _ _ _ hord

/-- Closed witness for `target_moisture_refines_spec`: mixed-case
`"ToMaTo"` at noon, 25 °C. -/
theorem target_moisture_refines_spec_witness :
    (0 : Int) ≤ 12 ∧ (12 : Int) ≤ 23 ∧
    calculate_target_moisture 0 "ToMaTo" 12 25 = spec_targetMoisture "ToMaTo" 12 25 :=
  ⟨by decide, by decide, target_moisture_refines_spec 0 "ToMaTo" 12 25 (by decide) (by decide)⟩

/-! ## C10: parsing of the latest-reading API response -/

/-- Fixture: `analyze` inputs whose reading has soil moisture `0` and the
same air temperature and hour as `envA`. -/
def envZ : AnalyzeEnv := ⟨some ⟨25, 50, 0, 22⟩, none, 12⟩

/-- Fixture: a raw reading missing its `soilMoisture` key. -/
def rawNoSoil : RawReading := ⟨some 25, some 50, none, some 22⟩

/-- Fixture: an API response carrying `rawNoSoil` under `latestReading`. -/
def apiNested : ApiData := ⟨some rawNoSoil, ⟨some 1, some 2, some 3, some 4⟩⟩

/-- Fixture: an API response with no `latestReading` key. -/
def apiFlat : ApiData := ⟨none, ⟨some 25, some 50, some 40, some 22⟩⟩

/-- C10.  `from_api_response` takes the reading from the nested
`latestReading` object when present and from the top level otherwise,
substituting `0` for every absent numeric field; in particular a response
missing `soilMoisture` parses to soil moisture `0`, which maximizes the
deficit `target - current` of any decision computed from it (given the
same hour and air temperature). -/
theorem from_api_response_parsing (d1 d2 : ApiData) (rr : RawReading)
    (h1 : d1.latestReading = some rr) (h2 : d2.latestReading = none)
    (hsm : rr.soilMoisture = none)
    (config : IrrigationConfig) (env env' : AnalyzeEnv) (r r' : SensorReading)
    (he : env.reading = some r) (he' : env'.reading = some r')
    (hz : r.soil_moisture = 0) (hm : 0 ≤ r'.soil_moisture)
    (hat : r'.air_temperature = r.air_temperature)
    (hh : env'.now_hour = env.now_hour) :
    from_api_response d1 = ⟨rr.airTemperature.getD 0, rr.airHumidity.getD 0,
      rr.soilMoisture.getD 0, rr.soilTemperature.getD 0⟩ ∧
    from_api_response d2 = ⟨d2.top.airTemperature.getD 0, d2.top.airHumidity.getD 0,
      d2.top.soilMoisture.getD 0, d2.top.soilTemperature.getD 0⟩ ∧
    (from_api_response d1).soil_moisture = 0 ∧
    (analyze_irrigation_need config env').target_moisture -
        (analyze_irrigation_need config env').current_moisture ≤
      (analyze_irrigation_need config env).target_moisture -
        (analyze_irrigation_need config env).current_moisture := by
  refine ⟨?_, ?_, ?_, ?_⟩
  · rw [from_api_response, h1]; rfl
  · rw [from_api_response, h2]; rfl
  · rw [from_api_response, h1]
    simp [hsm]
  · simp only [analyze_irrigation_need, he, he', hz, hat, hh]
    cases htm : config.target_moisture with
    | some t => simp only [htm]; linarith
    | none =>
      simp only [htm]
      have hcm : calculate_target_moisture r'.soil_moisture
          (config.plant_type.getD "default") env.now_hour r.air_temperature =
        calculate_target_moisture 0 (config.plant_type.getD "default")
          env.now_hour r.air_temperature := rfl
      rw [hcm]
      linarith

/-- Closed witness for `from_api_response_parsing`: a nested response
missing `soilMoisture`, a flat response, and the zero-soil versus 40%-soil
decisions of the 42%-target greenhouse. -/
theorem from_api_response_parsing_witness :
    apiNested.latestReading = some rawNoSoil ∧
    apiFlat.latestReading = none ∧
    rawNoSoil.soilMoisture = none ∧
    envZ.reading = some ⟨25, 50, 0, 22⟩ ∧
    envA.reading = some readingA ∧
    ((from_api_response apiNested).soil_moisture = 0 ∧
      (analyze_irrigation_need cfgA envA).target_moisture -
          (analyze_irrigation_need cfgA envA).current_moisture ≤
        (analyze_irrigation_need cfgA envZ).target_moisture -
          (analyze_irrigation_need cfgA envZ).current_moisture) := by
  have h := from_api_response_parsing apiNested apiFlat rawNoSoil rfl rfl rfl
    cfgA envZ envA ⟨25, 50, 0, 22⟩ readingA rfl rfl rfl (by norm_num [readingA])
    (by norm_num [readingA]) rfl
  exact ⟨rfl, rfl, rfl, rfl, rfl, h.2.2.1, h.2.2.2⟩

/-! ## Pulse-loop lemmas -/

theorem reportsOf_append (a b : List ExecEvent) :
    reportsOf (a ++ b) = reportsOf a ++ reportsOf b := by
  simp [reportsOf, List.filterMap_append]

theorem activationsOf_append (a b : List ExecEvent) :
    activationsOf (a ++ b) = activationsOf a ++ activationsOf b := by
  simp [activationsOf, List.filterMap_append]

theorem reportsOf_replicate_activate (n : Nat) (u : String)
    (b : List (String × Int)) :
    reportsOf (List.replicate n (.activatePump u b)) = [] := by
  induction n with
  | zero => rfl
  | succ n ih =>
    rw [List.replicate_succ]
    simpa [reportsOf] using ih

theorem activationsOf_replicate_activate (n : Nat) (u : String)
    (b : List (String × Int)) :
    activationsOf (List.replicate n (.activatePump u b)) =
      List.replicate n (u, b) := by
  induction n with
  | zero => rfl
  | succ n ih =>
    rw [List.replicate_succ, List.replicate_succ]
    simpa [activationsOf] using ih

theorem pulseLoop_reports (env : ExecEnv) (url : String)
    (body : List (String × Int)) (dur target : Rat) :
    ∀ (fuel i : Nat) (pulses : Int) (total : Rat) (evs : List ExecEvent),
      reportsOf (pulseLoop env url body dur target fuel i pulses total evs).events =
        reportsOf evs := by
  intro fuel
  induction fuel with
  | zero => intro i pulses total evs; rfl
  | succ fuel ih =>
    intro i pulses total evs
    have hact : reportsOf (evs ++ [ExecEvent.activatePump url body]) = reportsOf evs := by
      rw [reportsOf_append]; simp [reportsOf]
    cases hresp : env.pulse_response i with
    | exn msg => simp only [pulseLoop, hresp]; simpa using hact
    | ok code =>
      simp only [pulseLoop, hresp]
      by_cases hrem : fuel > 0
      · rw [if_pos hrem]
        cases hmid : env.mid_reading i with
        | none => simpa using (ih (i + 1) _ _ _).trans hact
        | some r =>
          by_cases hsm : r.soil_moisture ≥ target
          · simpa [hsm] using hact
          · simpa [hsm] using (ih (i + 1) _ _ _).trans hact
      · rw [if_neg hrem]
        simpa using (ih (i + 1) _ _ _).trans hact

theorem pulseLoop_all_ok (env : ExecEnv) (url : String)
    (body : List (String × Int)) (dur target : Rat) (codes : Nat → Int)
    (hok : ∀ j, env.pulse_response j = .ok (codes j))
    (hmid : ∀ j, env.mid_reading j = none) :
    ∀ (fuel i : Nat) (pulses : Int) (total : Rat) (evs : List ExecEvent),
      (pulseLoop env url body dur target fuel i pulses total evs).exn = none ∧
      (pulseLoop env url body dur target fuel i pulses total evs).pulses =
        pulses + ((List.range' i fuel).countP (fun j => codes j = 200) : Int) ∧
      (pulseLoop env url body dur target fuel i pulses total evs).events =
        evs ++ List.replicate fuel (.activatePump url body) := by
  intro fuel
  induction fuel with
  | zero => intro i pulses total evs; simp [pulseLoop]
  | succ fuel ih =>
    intro i pulses total evs
    have hcount : ((List.range' i (fuel + 1)).countP (fun j => codes j = 200) : Int) =
        (if codes i = 200 then 1 else 0) +
          ((List.range' (i + 1) fuel).countP (fun j => codes j = 200) : Int) := by
      rw [List.range'_succ, List.countP_cons]
      by_cases hc : codes i = 200 <;> simp [hc] <;> push_cast <;> ring
    have hrep : evs ++ List.replicate (fuel + 1) (ExecEvent.activatePump url body) =
        (evs ++ [ExecEvent.activatePump url body]) ++
          List.replicate fuel (ExecEvent.activatePump url body) := by
      simp [List.replicate_succ]
    simp only [pulseLoop, hok i]
    by_cases hrem : fuel > 0
    · rw [if_pos hrem, hmid i]
      obtain ⟨h1, h2, h3⟩ := ih (i + 1)
        (if codes i = 200 then pulses + 1 else pulses)
        (if codes i = 200 then total + dur else total)
        (evs ++ [ExecEvent.activatePump url body])
      refine ⟨h1, ?_, by rw [h3, hrep]⟩
      rw [h2, hcount]
      by_cases hc : codes i = 200 <;> simp [hc] <;> ring
    · rw [if_neg hrem]
      obtain ⟨h1, h2, h3⟩ := ih (i + 1)
        (if codes i = 200 then pulses + 1 else pulses)
        (if codes i = 200 then total + dur else total)
        (evs ++ [ExecEvent.activatePump url body])
      refine ⟨h1, ?_, by rw [h3, hrep]⟩
      rw [h2, hcount]
      by_cases hc : codes i = 200 <;> simp [hc] <;> ring

theorem pulseLoop_exn_first (env : ExecEnv) (url : String)
    (body : List (String × Int)) (dur target : Rat) (msg : String)
    (fuel i : Nat) (pulses : Int) (total : Rat) (evs : List ExecEvent)
    (hexn : env.pulse_response i = .exn msg) :
    pulseLoop env url body dur target (fuel + 1) i pulses total evs =
      ⟨pulses, total, evs ++ [.activatePump url body], some msg⟩ := by
  simp [pulseLoop, hexn]

/-! ## C4: report exactness -/

/-- C4 (amended).  `execute_irrigation` posts exactly one irrigation
report when it reaches the pulse sequence (one `success` report if no
exception was raised, one `failed` report otherwise), and posts none at
all on the two early returns: missing actuator configuration, and a
decision that needs no irrigation. -/
theorem exec_report_exactness (config : IrrigationConfig)
    (decision : IrrigationDecision) (env : ExecEnv) (st : IrrigationStatus) :
    (reportsOf (execute_irrigation config decision env st).2.1).length =
      (if config.esp32_url = none ∨ decision.needs_irrigation = false then 0
       else 1) := by
  cases hurl : config.esp32_url with
  | none => simp [execute_irrigation, hurl, reportsOf]
  | some url =>
    by_cases hneeds : decision.needs_irrigation = false
    · simp [execute_irrigation, hurl, hneeds, reportsOf]
    · have hloop := pulseLoop_reports env (url ++ "/pump/activate")
        [("duration", pyInt (decision.pulse_duration * 1000))]
        decision.pulse_duration decision.target_moisture
        decision.pulse_count.toNat 0 0 0 []
      simp only [execute_irrigation, hurl, if_neg hneeds]
      cases hexn : (pulseLoop env (url ++ "/pump/activate")
          [("duration", pyInt (decision.pulse_duration * 1000))]
          decision.pulse_duration decision.target_moisture
          decision.pulse_count.toNat 0 0 0 []).exn with
      | none =>
        simp only [hexn, reportsOf_append, List.length_append, hloop]
        simp [reportsOf, hneeds]
      | some msg =>
        simp only [hexn, reportsOf_append, List.length_append, hloop]
        simp [reportsOf, hneeds]

/-- C4 counterexample.  An invocation for a greenhouse with no actuator
configured returns without posting any report, so not every invocation
posts exactly one. -/
theorem exec_report_counterexample :
    emptyConfig.esp32_url = none ∧
    (reportsOf (execute_irrigation emptyConfig decisionA execEnv200 .idle).2.1).length = 0 := by
  decide

/-! ## C3: failure semantics of the pulse sequence -/

/-- C3 (amended).  A non-2xx HTTP status on a pulse does not abort the
sequence: the pulse is merely not counted, all `pulseCount` activations
are attempted, and — absent a raised exception — the call ends with
`success = true` and exactly one report with status `success`
(`pulsesExecuted` counts only the HTTP-200 pulses).  Only a raised
exception (e.g. a connection error) aborts the sequence at the failing
pulse, with `success = false` and exactly one `failed` report carrying the
exception message. -/
theorem exec_failure_semantics (config : IrrigationConfig)
    (decision : IrrigationDecision) (envOk envExn : ExecEnv)
    (st st' : IrrigationStatus) (url : String) (codes : Nat → Int)
    (msg : String)
    (hurl : config.esp32_url = some url)
    (hneeds : decision.needs_irrigation = true)
    (hok : ∀ j, envOk.pulse_response j = .ok (codes j))
    (hmid : ∀ j, envOk.mid_reading j = none)
    (hexn : envExn.pulse_response 0 = .exn msg)
    (hpc : 0 < decision.pulse_count) :
    ((execute_irrigation config decision envOk st).1.success = true ∧
     (reportsOf (execute_irrigation config decision envOk st).2.1).map
       IrrigationReport.status = ["success"] ∧
     (execute_irrigation config decision envOk st).1.pulses_executed =
       (((List.range decision.pulse_count.toNat).countP
         (fun j => codes j = 200) : Nat) : Int) ∧
     (activationsOf (execute_irrigation config decision envOk st).2.1).length =
       decision.pulse_count.toNat) ∧
    ((execute_irrigation config decision envExn st').1.success = false ∧
     (execute_irrigation config decision envExn st').1.pulses_executed = 0 ∧
     (reportsOf (execute_irrigation config decision envExn st').2.1).map
       IrrigationReport.status = ["failed"] ∧
     ∀ rep ∈ reportsOf (execute_irrigation config decision envExn st').2.1,
       rep.error_message = some msg) := by
  have hneeds' : ¬(decision.needs_irrigation = false) := by simp [hneeds]
  constructor
  · obtain ⟨h1, h2, h3⟩ := pulseLoop_all_ok envOk (url ++ "/pump/activate")
      [("duration", pyInt (decision.pulse_duration * 1000))]
      decision.pulse_duration decision.target_moisture codes hok hmid
      decision.pulse_count.toNat 0 0 0 []
    refine ⟨?_, ?_, ?_, ?_⟩
    · simp only [execute_irrigation, hurl, if_neg hneeds', h1]
    · simp only [execute_irrigation, hurl, if_neg hneeds', h1, h3]
      simp only [List.nil_append, reportsOf_append, reportsOf_replicate_activate]
      rfl
    · simp only [execute_irrigation, hurl, if_neg hneeds', h1, h2]
      rw [List.range_eq_range']
      omega
    · simp only [execute_irrigation, hurl, if_neg hneeds', h1, h3]
      simp only [List.nil_append, activationsOf_append,
        activationsOf_replicate_activate]
      simp [activationsOf]
  · obtain ⟨m, hm⟩ : ∃ m, decision.pulse_count.toNat = m + 1 :=
      ⟨decision.pulse_count.toNat - 1, by omega⟩
    have hloop := pulseLoop_exn_first envExn (url ++ "/pump/activate")
      [("duration", pyInt (decision.pulse_duration * 1000))]
      decision.pulse_duration decision.target_moisture msg m 0 0 0 [] hexn
    refine ⟨?_, ?_, ?_, ?_⟩
    · simp only [execute_irrigation, hurl, if_neg hneeds', hm, hloop]
    · simp only [execute_irrigation, hurl, if_neg hneeds', hm, hloop]
    · simp only [execute_irrigation, hurl, if_neg hneeds', hm, hloop]
      simp [reportsOf]
    · simp only [execute_irrigation, hurl, if_neg hneeds', hm, hloop]
      intro rep hrep
      simp [reportsOf] at hrep
      rw [hrep]

/-- Closed witness for `exec_failure_semantics`: the 42%-target greenhouse
with a one-pulse decision, against an actuator that always answers 200 and
one that always raises a connection error. -/
theorem exec_failure_semantics_witness :
    cfgA.esp32_url = some "http://1.2.3.4:8080" ∧
    decisionA.needs_irrigation = true ∧
    0 < decisionA.pulse_count ∧
    ((execute_irrigation cfgA decisionA execEnv200 .idle).1.success = true ∧
     (execute_irrigation cfgA decisionA execEnvExn .idle).1.success = false) := by
  have h := exec_failure_semantics cfgA decisionA execEnv200 execEnvExn
    .idle .idle "http://1.2.3.4:8080" (fun _ => 200) "connection refused"
    rfl rfl (fun j => rfl) (fun j => rfl) rfl (by decide)
  exact ⟨rfl, rfl, by decide, h.1.1, h.2.1⟩

/-- C3 counterexample.  With the actuator answering HTTP 500 to the single
pulse of a one-pulse decision, the call does not abort with a failure: it
returns `success = true` with `pulsesExecuted = 0` and posts one report
with status `success` and no `errorMessage`, where the claim expects
`success = false` and one `failed` report with a populated
`errorMessage`. -/
theorem exec_failure_semantics_counterexample :
    (execute_irrigation cfgA decisionA execEnv500 .idle).1.pulses_executed = 0 ∧
    (execute_irrigation cfgA decisionA execEnv500 .idle).1.success = true ∧
    (reportsOf (execute_irrigation cfgA decisionA execEnv500 .idle).2.1).map
      IrrigationReport.status = ["success"] ∧
    (reportsOf (execute_irrigation cfgA decisionA execEnv500 .idle).2.1).map
      IrrigationReport.error_message = [none] := by
  norm_num [execute_irrigation, pulseLoop, cfgA, decisionA, execEnv500,
    readingA, pyInt, reportsOf]
  all_goals decide

/-! ## C5: no per-greenhouse mutual exclusion -/

/-- C5 (amended).  `execute_irrigation` takes no lock and performs no
in-progress check: the service's status on entry influences neither the
returned `IrrigationResult` nor the emitted actuator/report actions (the
source writes `self.status` but never reads it), so a second call issued
while another sequence is in flight proceeds to activate the pump instead
of returning an "already in progress" error. -/
theorem exec_status_independent (config : IrrigationConfig)
    (decision : IrrigationDecision) (env : ExecEnv)
    (st st' : IrrigationStatus) :
    (execute_irrigation config decision env st).1 =
      (execute_irrigation config decision env st').1 ∧
    (execute_irrigation config decision env st).2.1 =
      (execute_irrigation config decision env st').2.1 := by
  cases hurl : config.esp32_url with
  | none => simp [execute_irrigation, hurl]
  | some url =>
    by_cases hneeds : decision.needs_irrigation = false
    · simp [execute_irrigation, hurl, hneeds]
    · simp only [execute_irrigation, hurl, if_neg hneeds]
      cases hexn : (pulseLoop env (url ++ "/pump/activate")
          [("duration", pyInt (decision.pulse_duration * 1000))]
          decision.pulse_duration decision.target_moisture
          decision.pulse_count.toNat 0 0 0 []).exn with
      | none => simp [hexn]
      | some msg => simp [hexn]

/-- C5 counterexample.  A call entered while the service status is already
`irrigating` still activates the pump and succeeds — it does not return
immediately with an "already in progress" error, because no lock or
in-progress check exists. -/
theorem exec_no_lock_counterexample :
    (execute_irrigation cfgA decisionA execEnv200 .irrigating).1.success = true ∧
    (execute_irrigation cfgA decisionA execEnv200 .irrigating).1.pulses_executed = 1 ∧
    (activationsOf (execute_irrigation cfgA decisionA execEnv200 .irrigating).2.1).length = 1 := by
  norm_num [execute_irrigation, pulseLoop, cfgA, decisionA, execEnv200,
    readingA, pyInt, activationsOf]
  all_goals decide

/-! ## C6: pump-activation payload keys -/

/-- C6.  Evaluation of both activation paths at a 1-second pulse: the
multi-pulse `execute_irrigation` path posts the JSON body under the key
`"duration"` (line 477), while the single-pulse monitoring path posts it
under `"duration_ms"` (line 706); both carry the millisecond value 1000.
The claim (and the actuator contract) require `"duration_ms"` on both
paths. -/
theorem exec_activation_payload_keys :
    (activationsOf (execute_irrigation cfgA decisionA execEnv200 .idle).2.1).map
      Prod.snd = [[("duration", 1000)]] ∧
    (activationsOf (execute_single_pulse cfgA singleEnv200).2).map
      Prod.snd = [[("duration_ms", 1000)]] ∧
    ("duration" == "duration_ms") = false := by
  refine ⟨?_, ?_, by decide⟩
  · norm_num [execute_irrigation, pulseLoop, cfgA, decisionA, execEnv200,
      readingA, pyInt, activationsOf]
    all_goals decide
  · norm_num [execute_single_pulse, cfgA, singleEnv200, readingA, pyInt,
      activationsOf]
    all_goals decide

/-! ## C8: prediction-notification cooldown -/

/-- Fixture: prediction-gate inputs the backend accepts (201, success,
not skipped) and the classifier flags (predicted 6-hour drop 60% to 10%
against a 42% target). -/
def predEnvAccept : PredictionEnv :=
  ⟨some [10, 10, 10, 10, 10, 10], some ⟨25, 50, 60, 22⟩, 201, true, false, false⟩

/-- Fixture: a supervisor tick at t = 9000 s whose notification the
backend accepts. -/
def gateTickA : GateTick := ⟨9000, cfgA, decisionA, predEnvAccept⟩

/-- Fixture: a supervisor tick at t = 10000 s (within the cooldown opened
at t = 9000). -/
def gateTickB : GateTick := ⟨10000, cfgA, decisionA, predEnvAccept⟩

theorem check_send_accepted (config : IrrigationConfig)
    (decision : IrrigationDecision) (env : PredictionEnv)
    (h : check_and_send_prediction config decision env = true) :
    env.http_status = 201 ∧ env.resp_success = true ∧
      env.resp_skipped = false := by
  simp only [check_and_send_prediction] at h
  by_cases hr : env.raised = true
  · simp [hr] at h
  · simp only [hr, if_false, Bool.false_eq_true] at h
    rcases hp : env.predictions with _ | ps
    · simp [hp] at h
    · simp only [hp] at h
      by_cases hlen : ps.length < 6
      · rw [if_pos hlen] at h; exact absurd h (by simp)
      · rw [if_neg hlen] at h
        rcases hrd : env.reading with _ | reading
        · simp [hrd] at h
        · simp only [hrd] at h
          split at h
          · exact absurd h (by simp)
          · simp only [Bool.and_eq_true, decide_eq_true_eq,
              Bool.not_eq_true'] at h
            exact ⟨h.1.1, h.1.2, h.2⟩

/-- C8.  The monitoring loop's prediction gate accepts a tick only when
the backend answered 201 with `success` and without `skipped` (and the
gate was open); otherwise the per-greenhouse `last_prediction_time` is
left unchanged and the tick is not accepted.  Consecutive accepted
notifications for a greenhouse are therefore always more than
`PREDICTION_COOLDOWN` (7200 s) apart — at most one accepted notification
per cooldown window. -/
theorem prediction_gate_cooldown :
    (∀ (last : Rat) (t : GateTick) (ts : List GateTick),
      gateAccepted last (t :: ts) = gateAccepted last ts ∨
      (t.env.http_status = 201 ∧ t.env.resp_success = true ∧
        t.env.resp_skipped = false ∧ PREDICTION_COOLDOWN < t.time - last ∧
        gateAccepted last (t :: ts) = t.time :: gateAccepted t.time ts)) ∧
    (∀ (ticks : List GateTick) (last : Rat),
      (gateAccepted last ticks).Chain'
        (fun a b => PREDICTION_COOLDOWN < b - a) ∧
      ∀ x ∈ gateAccepted last ticks, PREDICTION_COOLDOWN < x - last) := by
  constructor
  · intro last t ts
    by_cases hgate : t.time - last > PREDICTION_COOLDOWN
    · by_cases hsend : check_and_send_prediction t.config t.decision t.env = true
      · right
        obtain ⟨h1, h2, h3⟩ := check_send_accepted _ _ _ hsend
        refine ⟨h1, h2, h3, hgate, ?_⟩
        simp only [gateAccepted, if_pos hgate, if_pos hsend]
      · left
        simp only [gateAccepted, if_pos hgate, if_neg hsend]
    · left
      simp only [gateAccepted, if_neg hgate]
  · intro ticks
    induction ticks with
    | nil => intro last; simp [gateAccepted]
    | cons t ts ih =>
      intro last
      by_cases hgate : t.time - last > PREDICTION_COOLDOWN
      · by_cases hsend : check_and_send_prediction t.config t.decision t.env = true
        · simp only [gateAccepted, if_pos hgate, if_pos hsend]
          obtain ⟨hchain, hall⟩ := ih t.time
          have hC : (0 : Rat) < PREDICTION_COOLDOWN := by
            norm_num [PREDICTION_COOLDOWN]
          constructor
          · rw [List.chain'_cons']
            exact ⟨fun y hy => hall y (List.mem_of_mem_head? hy), hchain⟩
          · intro x hx
            rcases List.mem_cons.mp hx with rfl | hx'
            · exact hgate
            · have h1 := hall x hx'
              linarith
        · simp only [gateAccepted, if_pos hgate, if_neg hsend]
          exact ih last
      · simp only [gateAccepted, if_neg hgate]
        exact ih last

/-- Closed witness for `prediction_gate_cooldown`: the accepted times of
two accepting ticks 1000 s apart are separated by more than the
cooldown. -/
theorem prediction_gate_cooldown_witness :
    (gateAccepted 0 [gateTickA, gateTickB]).Chain'
      (fun a b => PREDICTION_COOLDOWN < b - a) :=
  (prediction_gate_cooldown.2 [gateTickA, gateTickB] 0).1

end Estufa
